import Mathlib

/-!
Shallow embedding of src/lib-gotchi/aavegotchi/collateralFacet.ts.

The module exports a contract binding (`collateralFacet`) and eight async
wrapper functions over it.  Each wrapper awaits one or more remote calls
(contract methods, the provider gas-price query, transaction confirmation)
and either returns the unmarshalled response or rethrows the caught value
wrapped in a fresh `Error`.

The remote side is modelled by an oracle `RemoteWorld` giving the outcome of
every possible remote call.  Each wrapper is embedded as a pure function from
the oracle and its arguments to a pair of
  - the trace of remote-call events it performs, in order, and
  - its final outcome: `Except JsErrorObj α` (`error` = rejected promise).
`console.log` and `ethers.utils.formatUnits` calls are pure formatting with
no effect on control flow or results and are not recorded in the trace.
-/

namespace CollateralFacet

/-- A JavaScript `Error` object: a message plus a (captured) stack. -/
structure JsErrorObj where
  message : String
  stack : String
  deriving DecidableEq

/-- JavaScript values that can be thrown by a remote call and caught by the
`catch (error: any)` clauses of the wrappers. -/
inductive JsValue where
  | str : String → JsValue
  | num : Int → JsValue
  | err : JsErrorObj → JsValue
  deriving DecidableEq

/-- JavaScript string conversion `String(v)` as applied by the `Error`
constructor to its argument; on an `Error` object it yields the name
"Error", a colon, a space, and the message. -/
def jsToString : JsValue → String
  | .str s => s
  | .num n => toString n
  | .err e => "Error: " ++ e.message

/-- `new Error(v)`: a freshly constructed `Error` whose message is the string
conversion of `v` and whose stack is captured at construction (not taken from
`v`); the fresh stack is modelled as `""`. -/
def newError (v : JsValue) : JsErrorObj :=
  { message := jsToString v, stack := "" }

/-- Pass-through collateral descriptor payload.  Its TypeScript interface
lives in `types.ts` (not part of the wrapped logic); the wrappers copy it
verbatim, so it is modelled as an opaque payload. -/
structure CollateralTypeInfo where
  raw : List Int
  deriving DecidableEq

/-- The `AavegotchiCollateralTypeIO` shape returned by the info wrappers:
exactly the two fields the wrappers project out. -/
structure AavegotchiCollateralTypeIO where
  collateralType : String
  collateralTypeInfo : CollateralTypeInfo
  deriving DecidableEq

/-- Remote response for `collateralInfo` / `getCollateralInfo` elements: the
two named fields the wrapper reads, plus whatever further entries the ethers
call result carries. -/
structure CollateralInfoResponse where
  collateralType : String
  collateralTypeInfo : CollateralTypeInfo
  extra : List JsValue
  deriving DecidableEq

/-- The projection `{collateralType: r.collateralType, collateralTypeInfo:
r.collateralTypeInfo}` applied by `collateralInfo` and `getCollateralInfo`. -/
def projectInfo (r : CollateralInfoResponse) : AavegotchiCollateralTypeIO :=
  { collateralType := r.collateralType, collateralTypeInfo := r.collateralTypeInfo }

/-- Remote response for `collateralBalance`: fields named with trailing
underscores as in the contract ABI, plus possible further entries. -/
structure CollateralBalanceResponse where
  collateralType_ : String
  escrow_ : String
  balance_ : Int
  extra : List JsValue
  deriving DecidableEq

/-- The object literal returned by the `collateralBalance` wrapper: exactly
the three keys `collateralType`, `escrow`, `balance`. -/
structure CollateralBalanceResult where
  collateralType : String
  escrow : String
  balance : Int
  deriving DecidableEq

/-- A transaction object returned by a contract write method. -/
structure Tx where
  txid : Int
  deriving DecidableEq

/-- A confirmation receipt returned by `tx.wait()`. -/
structure Receipt where
  rid : Int
  deriving DecidableEq

/-- The transaction-override object passed as the extra last argument of a
contract write call; the wrappers only ever set `gasPrice`. -/
structure Overrides where
  gasPrice : Option Int
  deriving DecidableEq

/-- One awaited remote call, recorded with the arguments passed to it. -/
inductive Event where
  | callCollaterals : Int → Event
  | callCollateralInfo : Int → Int → Event
  | callGetCollateralInfo : Int → Event
  | callGetAllCollateralTypes : Event
  | callCollateralBalance : Int → Event
  | getGasPrice : Event
  | callIncreaseStake : Int → Int → Overrides → Event
  | callDecreaseStake : Int → Int → Overrides → Event
  | callDecreaseAndDestroy : Int → Int → Overrides → Event
  | txWait : Event
  deriving DecidableEq

/-- Oracle for the remote side: the outcome of every remote call the module
can make (methods of the `collateralFacet` binding, `PROVIDER.getGasPrice`,
and `tx.wait`).  An `error` outcome is the thrown JavaScript value. -/
structure RemoteWorld where
  collaterals : Int → Except JsValue (List String)
  collateralInfo : Int → Int → Except JsValue CollateralInfoResponse
  getCollateralInfo : Int → Except JsValue (List CollateralInfoResponse)
  getAllCollateralTypes : Unit → Except JsValue (List String)
  collateralBalance : Int → Except JsValue CollateralBalanceResponse
  getGasPrice : Unit → Except JsValue Int
  increaseStake : Int → Int → Overrides → Except JsValue Tx
  decreaseStake : Int → Int → Overrides → Except JsValue Tx
  decreaseAndDestroy : Int → Int → Overrides → Except JsValue Tx
  txWait : Tx → Except JsValue Receipt

/-- Embedding of `collaterals` (collateralFacet.ts lines 45-52). -/
def collaterals (w : RemoteWorld) (hauntId : Int) :
    List Event × Except JsErrorObj (List String) :=
  match w.collaterals hauntId with
  | .ok v => ([Event.callCollaterals hauntId], .ok v)
  | .error e => ([Event.callCollaterals hauntId], .error (newError e))

/-- Embedding of `collateralInfo` (lines 61-68). -/
def collateralInfo (w : RemoteWorld) (hauntId collateralId : Int) :
    List Event × Except JsErrorObj AavegotchiCollateralTypeIO :=
  match w.collateralInfo hauntId collateralId with
  | .ok ret => ([Event.callCollateralInfo hauntId collateralId], .ok (projectInfo ret))
  | .error e => ([Event.callCollateralInfo hauntId collateralId], .error (newError e))

/-- Embedding of `getCollateralInfo` (lines 76-88). -/
def getCollateralInfo (w : RemoteWorld) (hauntId : Int) :
    List Event × Except JsErrorObj (List AavegotchiCollateralTypeIO) :=
  match w.getCollateralInfo hauntId with
  | .ok ret => ([Event.callGetCollateralInfo hauntId], .ok (ret.map projectInfo))
  | .error e => ([Event.callGetCollateralInfo hauntId], .error (newError e))

/-- Embedding of `getAllCollateralTypes` (lines 95-102). -/
def getAllCollateralTypes (w : RemoteWorld) :
    List Event × Except JsErrorObj (List String) :=
  match w.getAllCollateralTypes () with
  | .ok v => ([Event.callGetAllCollateralTypes], .ok v)
  | .error e => ([Event.callGetAllCollateralTypes], .error (newError e))

/-- Embedding of `collateralBalance` (lines 113-120). -/
def collateralBalance (w : RemoteWorld) (tokenId : Int) :
    List Event × Except JsErrorObj CollateralBalanceResult :=
  match w.collateralBalance tokenId with
  | .ok ret =>
      ([Event.callCollateralBalance tokenId],
        .ok { collateralType := ret.collateralType_, escrow := ret.escrow_,
              balance := ret.balance_ })
  | .error e => ([Event.callCollateralBalance tokenId], .error (newError e))

/-- Embedding of `increaseStake` (lines 143-156): awaits the gas-price query,
then the contract write with a `{gasPrice}` override, then `tx.wait()`. -/
def increaseStake (w : RemoteWorld) (tokenId stakeAmount : Int) :
    List Event × Except JsErrorObj Unit :=
  match w.getGasPrice () with
  | .error e => ([Event.getGasPrice], .error (newError e))
  | .ok gasPrice =>
      match w.increaseStake tokenId stakeAmount { gasPrice := some gasPrice } with
      | .error e =>
          ([Event.getGasPrice,
            Event.callIncreaseStake tokenId stakeAmount { gasPrice := some gasPrice }],
            .error (newError e))
      | .ok tx =>
          match w.txWait tx with
          | .error e =>
              ([Event.getGasPrice,
                Event.callIncreaseStake tokenId stakeAmount { gasPrice := some gasPrice },
                Event.txWait], .error (newError e))
          | .ok _ =>
              ([Event.getGasPrice,
                Event.callIncreaseStake tokenId stakeAmount { gasPrice := some gasPrice },
                Event.txWait], .ok ())

/-- Embedding of `decreaseStake` (lines 166-179). -/
def decreaseStake (w : RemoteWorld) (tokenId reduceAmount : Int) :
    List Event × Except JsErrorObj Unit :=
  match w.getGasPrice () with
  | .error e => ([Event.getGasPrice], .error (newError e))
  | .ok gasPrice =>
      match w.decreaseStake tokenId reduceAmount { gasPrice := some gasPrice } with
      | .error e =>
          ([Event.getGasPrice,
            Event.callDecreaseStake tokenId reduceAmount { gasPrice := some gasPrice }],
            .error (newError e))
      | .ok tx =>
          match w.txWait tx with
          | .error e =>
              ([Event.getGasPrice,
                Event.callDecreaseStake tokenId reduceAmount { gasPrice := some gasPrice },
                Event.txWait], .error (newError e))
          | .ok _ =>
              ([Event.getGasPrice,
                Event.callDecreaseStake tokenId reduceAmount { gasPrice := some gasPrice },
                Event.txWait], .ok ())

/-- Embedding of `decreaseAndDestroy` (lines 189-202). -/
def decreaseAndDestroy (w : RemoteWorld) (tokenId toId : Int) :
    List Event × Except JsErrorObj Unit :=
  match w.getGasPrice () with
  | .error e => ([Event.getGasPrice], .error (newError e))
  | .ok gasPrice =>
      match w.decreaseAndDestroy tokenId toId { gasPrice := some gasPrice } with
      | .error e =>
          ([Event.getGasPrice,
            Event.callDecreaseAndDestroy tokenId toId { gasPrice := some gasPrice }],
            .error (newError e))
      | .ok tx =>
          match w.txWait tx with
          | .error e =>
              ([Event.getGasPrice,
                Event.callDecreaseAndDestroy tokenId toId { gasPrice := some gasPrice },
                Event.txWait], .error (newError e))
          | .ok _ =>
              ([Event.getGasPrice,
                Event.callDecreaseAndDestroy tokenId toId { gasPrice := some gasPrice },
                Event.txWait], .ok ())

/-- Is this event an invocation of the contract method `collaterals`? -/
def isCollateralsCall : Event → Bool
  | .callCollaterals _ => true
  | _ => false

/-- Is this event an invocation of the contract method `collateralInfo`? -/
def isCollateralInfoCall : Event → Bool
  | .callCollateralInfo _ _ => true
  | _ => false

/-- Is this event an invocation of the contract method `getCollateralInfo`? -/
def isGetCollateralInfoCall : Event → Bool
  | .callGetCollateralInfo _ => true
  | _ => false

/-- Is this event an invocation of the contract method `getAllCollateralTypes`? -/
def isGetAllCollateralTypesCall : Event → Bool
  | .callGetAllCollateralTypes => true
  | _ => false

/-- Is this event an invocation of the contract method `collateralBalance`? -/
def isCollateralBalanceCall : Event → Bool
  | .callCollateralBalance _ => true
  | _ => false

/-- Is this event an invocation of the contract method `increaseStake`? -/
def isIncreaseStakeCall : Event → Bool
  | .callIncreaseStake _ _ _ => true
  | _ => false

/-- Is this event an invocation of the contract method `decreaseStake`? -/
def isDecreaseStakeCall : Event → Bool
  | .callDecreaseStake _ _ _ => true
  | _ => false

/-- Is this event an invocation of the contract method `decreaseAndDestroy`? -/
def isDecreaseAndDestroyCall : Event → Bool
  | .callDecreaseAndDestroy _ _ _ => true
  | _ => false

/-- Is this event the provider gas-price query? -/
def isGasQuery : Event → Bool
  | .getGasPrice => true
  | _ => false

/-- A concrete sample info response, for witnesses. -/
def infoA : CollateralInfoResponse :=
  { collateralType := "0xC1", collateralTypeInfo := ⟨[7]⟩, extra := [JsValue.num 9] }

/-- A concrete sample balance response, for witnesses. -/
def balResp : CollateralBalanceResponse :=
  { collateralType_ := "0xC", escrow_ := "0xE", balance_ := 42, extra := [] }

/-- A concrete oracle on which every remote call succeeds. -/
def sampleWorld : RemoteWorld where
  collaterals := fun _ => .ok ["0xA", "0xB"]
  collateralInfo := fun _ _ => .ok infoA
  getCollateralInfo := fun _ => .ok [infoA]
  getAllCollateralTypes := fun _ => .ok ["0xA"]
  collateralBalance := fun _ => .ok balResp
  getGasPrice := fun _ => .ok 30
  increaseStake := fun _ _ _ => .ok ⟨1⟩
  decreaseStake := fun _ _ _ => .ok ⟨2⟩
  decreaseAndDestroy := fun _ _ _ => .ok ⟨3⟩
  txWait := fun _ => .ok ⟨0⟩

/-- A concrete oracle on which the gas-price query throws. -/
def gasFailWorld : RemoteWorld :=
  { sampleWorld with getGasPrice := fun _ => .error (JsValue.str "boom") }

/-- Wrapping a caught value in a fresh `Error` never yields the caught value
itself: for non-`Error` values the constructors differ, and for an `Error`
object the message strictly grows by the "Error: " name prefixing of string
conversion. -/
theorem newError_ne_arg (v : JsValue) : JsValue.err (newError v) ≠ v := by
  cases v with
  | str s => simp [newError]
  | num n => simp [newError]
  | err e =>
    obtain ⟨m, st⟩ := e
    intro h
    simp only [newError, jsToString, JsValue.err.injEq, JsErrorObj.mk.injEq] at h
    have h2 := congrArg String.length h.1
    rw [String.length_append] at h2
    have h7 : ("Error: ").length = 7 := rfl
    rw [h7] at h2
    omega

/-- C1: every exported wrapper passes its arguments unchanged and in the same
order to the identically named method of the remote contract binding, with no
validation or transformation: each read wrapper performs exactly one call
event carrying exactly its arguments, and every contract-call event of a
write wrapper carries exactly the wrapper's arguments (followed by the
gas-price override object), the call being issued whenever the gas-price
query succeeds. -/
theorem c1_args_pass_through (w : RemoteWorld) (a b : Int) :
    (collaterals w a).1 = [Event.callCollaterals a]
    ∧ (collateralInfo w a b).1 = [Event.callCollateralInfo a b]
    ∧ (getCollateralInfo w a).1 = [Event.callGetCollateralInfo a]
    ∧ (getAllCollateralTypes w).1 = [Event.callGetAllCollateralTypes]
    ∧ (collateralBalance w a).1 = [Event.callCollateralBalance a]
    ∧ (∀ t s ov, Event.callIncreaseStake t s ov ∈ (increaseStake w a b).1 → t = a ∧ s = b)
    ∧ (∀ gp, w.getGasPrice () = .ok gp →
        Event.callIncreaseStake a b { gasPrice := some gp } ∈ (increaseStake w a b).1)
    ∧ (∀ t s ov, Event.callDecreaseStake t s ov ∈ (decreaseStake w a b).1 → t = a ∧ s = b)
    ∧ (∀ gp, w.getGasPrice () = .ok gp →
        Event.callDecreaseStake a b { gasPrice := some gp } ∈ (decreaseStake w a b).1)
    ∧ (∀ t s ov, Event.callDecreaseAndDestroy t s ov ∈ (decreaseAndDestroy w a b).1 →
        t = a ∧ s = b)
    ∧ (∀ gp, w.getGasPrice () = .ok gp →
        Event.callDecreaseAndDestroy a b { gasPrice := some gp } ∈ (decreaseAndDestroy w a b).1) := by
  refine ⟨?_, ?_, ?_, ?_, ?_, ?_, ?_, ?_, ?_, ?_, ?_⟩
  · cases h : w.collaterals a <;> simp [collaterals, h]
  · cases h : w.collateralInfo a b <;> simp [collateralInfo, h]
  · cases h : w.getCollateralInfo a <;> simp [getCollateralInfo, h]
  · cases h : w.getAllCollateralTypes () <;> simp [getAllCollateralTypes, h]
  · cases h : w.collateralBalance a <;> simp [collateralBalance, h]
  · intro t s ov hmem
    cases hg : w.getGasPrice () with
    | error e => simp [increaseStake, hg] at hmem
    | ok gp =>
      cases hm : w.increaseStake a b { gasPrice := some gp } with
      | error e =>
        simp [increaseStake, hg, hm] at hmem
        exact ⟨hmem.1, hmem.2.1⟩
      | ok tx =>
        cases hw : w.txWait tx with
        | error e =>
          simp [increaseStake, hg, hm, hw] at hmem
          exact ⟨hmem.1, hmem.2.1⟩
        | ok rc =>
          simp [increaseStake, hg, hm, hw] at hmem
          exact ⟨hmem.1, hmem.2.1⟩
  · intro gp hg
    cases hm : w.increaseStake a b { gasPrice := some gp } with
    | error e => simp [increaseStake, hg, hm]
    | ok tx => cases hw : w.txWait tx <;> simp [increaseStake, hg, hm, hw]
  · intro t s ov hmem
    cases hg : w.getGasPrice () with
    | error e => simp [decreaseStake, hg] at hmem
    | ok gp =>
      cases hm : w.decreaseStake a b { gasPrice := some gp } with
      | error e =>
        simp [decreaseStake, hg, hm] at hmem
        exact ⟨hmem.1, hmem.2.1⟩
      | ok tx =>
        cases hw : w.txWait tx with
        | error e =>
          simp [decreaseStake, hg, hm, hw] at hmem
          exact ⟨hmem.1, hmem.2.1⟩
        | ok rc =>
          simp [decreaseStake, hg, hm, hw] at hmem
          exact ⟨hmem.1, hmem.2.1⟩
  · intro gp hg
    cases hm : w.decreaseStake a b { gasPrice := some gp } with
    | error e => simp [decreaseStake, hg, hm]
    | ok tx => cases hw : w.txWait tx <;> simp [decreaseStake, hg, hm, hw]
  · intro t s ov hmem
    cases hg : w.getGasPrice () with
    | error e => simp [decreaseAndDestroy, hg] at hmem
    | ok gp =>
      cases hm : w.decreaseAndDestroy a b { gasPrice := some gp } with
      | error e =>
        simp [decreaseAndDestroy, hg, hm] at hmem
        exact ⟨hmem.1, hmem.2.1⟩
      | ok tx =>
        cases hw : w.txWait tx with
        | error e =>
          simp [decreaseAndDestroy, hg, hm, hw] at hmem
          exact ⟨hmem.1, hmem.2.1⟩
        | ok rc =>
          simp [decreaseAndDestroy, hg, hm, hw] at hmem
          exact ⟨hmem.1, hmem.2.1⟩
  · intro gp hg
    cases hm : w.decreaseAndDestroy a b { gasPrice := some gp } with
    | error e => simp [decreaseAndDestroy, hg, hm]
    | ok tx => cases hw : w.txWait tx <;> simp [decreaseAndDestroy, hg, hm, hw]

/-- C1 witness: on the all-success sample oracle with arguments 1, 2 the
gas-price query succeeds with 30 and the `increaseStake` contract call with
exactly those arguments is issued. -/
theorem c1_args_pass_through_witness :
    sampleWorld.getGasPrice () = .ok 30
    ∧ Event.callIncreaseStake 1 2 { gasPrice := some 30 } ∈ (increaseStake sampleWorld 1 2).1 := by
  obtain ⟨-, -, -, -, -, -, h7, -⟩ := c1_args_pass_through sampleWorld 1 2
  exact ⟨rfl, h7 30 rfl⟩

/-- C4: each read wrapper returns the unmarshalled remote response:
`collaterals` and `getAllCollateralTypes` return the received array
unchanged; `collateralInfo` returns the object with the response's
`collateralType` and `collateralTypeInfo` fields; `getCollateralInfo`
returns a list of the same length whose i-th element is the projection of
the i-th response element onto those two fields. -/
theorem c4_read_results (w : RemoteWorld) (a b : Int) :
    (∀ v, w.collaterals a = .ok v → (collaterals w a).2 = .ok v)
    ∧ (∀ v, w.getAllCollateralTypes () = .ok v → (getAllCollateralTypes w).2 = .ok v)
    ∧ (∀ r, w.collateralInfo a b = .ok r →
        (collateralInfo w a b).2
          = .ok { collateralType := r.collateralType,
                  collateralTypeInfo := r.collateralTypeInfo })
    ∧ (∀ rs, w.getCollateralInfo a = .ok rs →
        ∃ res, (getCollateralInfo w a).2 = .ok res
          ∧ res.length = rs.length
          ∧ ∀ i : Nat, res[i]? = (rs[i]?).map projectInfo) := by
  refine ⟨?_, ?_, ?_, ?_⟩
  · intro v h
    simp [collaterals, h]
  · intro v h
    simp [getAllCollateralTypes, h]
  · intro r h
    simp [collateralInfo, h, projectInfo]
  · intro rs h
    refine ⟨rs.map projectInfo, ?_, by simp, ?_⟩
    · simp [getCollateralInfo, h]
    · intro i
      simp [List.getElem?_map]

/-- C4 witness: on the sample oracle the remote `getCollateralInfo` response
is a one-element list and the wrapper returns its elementwise projection. -/
theorem c4_read_results_witness :
    sampleWorld.getCollateralInfo 1 = .ok [infoA]
    ∧ ∃ res, (getCollateralInfo sampleWorld 1).2 = .ok res
        ∧ res.length = ([infoA] : List CollateralInfoResponse).length
        ∧ ∀ i : Nat, res[i]? = (([infoA] : List CollateralInfoResponse)[i]?).map projectInfo := by
  obtain ⟨-, -, -, h4⟩ := c4_read_results sampleWorld 1 2
  exact ⟨rfl, h4 [infoA] rfl⟩

/-- C8: when the remote `collateralBalance` call succeeds, the wrapper
returns the object with exactly the keys `collateralType`, `escrow`,
`balance`, holding the response fields `collateralType_`, `escrow_`,
`balance_` unchanged (underscores stripped from the key names, the balance
value passed through without conversion). -/
theorem c8_balance_projection (w : RemoteWorld) (t : Int) (r : CollateralBalanceResponse)
    (h : w.collateralBalance t = .ok r) :
    (collateralBalance w t).2
      = .ok { collateralType := r.collateralType_, escrow := r.escrow_,
              balance := r.balance_ } := by
  simp [collateralBalance, h]

/-- C8 witness: the projection evaluated on a concrete response. -/
theorem c8_balance_projection_witness :
    sampleWorld.collateralBalance 3 = .ok balResp
    ∧ (collateralBalance sampleWorld 3).2
        = .ok { collateralType := "0xC", escrow := "0xE", balance := 42 } :=
  ⟨rfl, c8_balance_projection sampleWorld 3 balResp rfl⟩

/-- C9: the value a wrapper throws is never the value the remote call threw:
it is always the freshly constructed `Error` whose message is the string
conversion of the caught value and whose stack is freshly captured, so it is
determined by that string alone, and the caught value's own fields and stack
do not reach the caller. -/
theorem c9_fresh_error (w : RemoteWorld) (a b : Int) :
    (∀ err, (collaterals w a).2 = .error err →
      ∃ e, w.collaterals a = .error e ∧ err = newError e ∧ JsValue.err err ≠ e)
    ∧ (∀ err, (collateralInfo w a b).2 = .error err →
      ∃ e, w.collateralInfo a b = .error e ∧ err = newError e ∧ JsValue.err err ≠ e)
    ∧ (∀ err, (getCollateralInfo w a).2 = .error err →
      ∃ e, w.getCollateralInfo a = .error e ∧ err = newError e ∧ JsValue.err err ≠ e)
    ∧ (∀ err, (getAllCollateralTypes w).2 = .error err →
      ∃ e, w.getAllCollateralTypes () = .error e ∧ err = newError e ∧ JsValue.err err ≠ e)
    ∧ (∀ err, (collateralBalance w a).2 = .error err →
      ∃ e, w.collateralBalance a = .error e ∧ err = newError e ∧ JsValue.err err ≠ e)
    ∧ (∀ err, (increaseStake w a b).2 = .error err →
      ∃ e, err = newError e ∧ JsValue.err err ≠ e
        ∧ (w.getGasPrice () = .error e
            ∨ (∃ gp, w.getGasPrice () = .ok gp
                ∧ w.increaseStake a b { gasPrice := some gp } = .error e)
            ∨ (∃ gp tx, w.getGasPrice () = .ok gp
                ∧ w.increaseStake a b { gasPrice := some gp } = .ok tx
                ∧ w.txWait tx = .error e)))
    ∧ (∀ err, (decreaseStake w a b).2 = .error err →
      ∃ e, err = newError e ∧ JsValue.err err ≠ e
        ∧ (w.getGasPrice () = .error e
            ∨ (∃ gp, w.getGasPrice () = .ok gp
                ∧ w.decreaseStake a b { gasPrice := some gp } = .error e)
            ∨ (∃ gp tx, w.getGasPrice () = .ok gp
                ∧ w.decreaseStake a b { gasPrice := some gp } = .ok tx
                ∧ w.txWait tx = .error e)))
    ∧ (∀ err, (decreaseAndDestroy w a b).2 = .error err →
      ∃ e, err = newError e ∧ JsValue.err err ≠ e
        ∧ (w.getGasPrice () = .error e
            ∨ (∃ gp, w.getGasPrice () = .ok gp
                ∧ w.decreaseAndDestroy a b { gasPrice := some gp } = .error e)
            ∨ (∃ gp tx, w.getGasPrice () = .ok gp
                ∧ w.decreaseAndDestroy a b { gasPrice := some gp } = .ok tx
                ∧ w.txWait tx = .error e)))
    ∧ (∀ v₁ v₂, jsToString v₁ = jsToString v₂ → newError v₁ = newError v₂)
    ∧ (∀ v, (newError v).message = jsToString v ∧ (newError v).stack = "") := by
  refine ⟨?_, ?_, ?_, ?_, ?_, ?_, ?_, ?_, ?_, ?_⟩
  · intro err herr
    cases h : w.collaterals a with
    | ok v => simp [collaterals, h] at herr
    | error e =>
      simp [collaterals, h] at herr
      exact ⟨e, rfl, herr.symm, herr ▸ newError_ne_arg e⟩
  · intro err herr
    cases h : w.collateralInfo a b with
    | ok v => simp [collateralInfo, h] at herr
    | error e =>
      simp [collateralInfo, h] at herr
      exact ⟨e, rfl, herr.symm, herr ▸ newError_ne_arg e⟩
  · intro err herr
    cases h : w.getCollateralInfo a with
    | ok v => simp [getCollateralInfo, h] at herr
    | error e =>
      simp [getCollateralInfo, h] at herr
      exact ⟨e, rfl, herr.symm, herr ▸ newError_ne_arg e⟩
  · intro err herr
    cases h : w.getAllCollateralTypes () with
    | ok v => simp [getAllCollateralTypes, h] at herr
    | error e =>
      simp [getAllCollateralTypes, h] at herr
      exact ⟨e, rfl, herr.symm, herr ▸ newError_ne_arg e⟩
  · intro err herr
    cases h : w.collateralBalance a with
    | ok v => simp [collateralBalance, h] at herr
    | error e =>
      simp [collateralBalance, h] at herr
      exact ⟨e, rfl, herr.symm, herr ▸ newError_ne_arg e⟩
  · intro err herr
    cases hg : w.getGasPrice () with
    | error e =>
      simp [increaseStake, hg] at herr
      exact ⟨e, herr.symm, herr ▸ newError_ne_arg e, Or.inl rfl⟩
    | ok gp =>
      cases hm : w.increaseStake a b { gasPrice := some gp } with
      | error e =>
        simp [increaseStake, hg, hm] at herr
        exact ⟨e, herr.symm, herr ▸ newError_ne_arg e, Or.inr (Or.inl ⟨gp, rfl, hm⟩)⟩
      | ok tx =>
        cases hw : w.txWait tx with
        | error e =>
          simp [increaseStake, hg, hm, hw] at herr
          exact ⟨e, herr.symm, herr ▸ newError_ne_arg e,
            Or.inr (Or.inr ⟨gp, tx, rfl, hm, hw⟩)⟩
        | ok rc => simp [increaseStake, hg, hm, hw] at herr
  · intro err herr
    cases hg : w.getGasPrice () with
    | error e =>
      simp [decreaseStake, hg] at herr
      exact ⟨e, herr.symm, herr ▸ newError_ne_arg e, Or.inl rfl⟩
    | ok gp =>
      cases hm : w.decreaseStake a b { gasPrice := some gp } with
      | error e =>
        simp [decreaseStake, hg, hm] at herr
        exact ⟨e, herr.symm, herr ▸ newError_ne_arg e, Or.inr (Or.inl ⟨gp, rfl, hm⟩)⟩
      | ok tx =>
        cases hw : w.txWait tx with
        | error e =>
          simp [decreaseStake, hg, hm, hw] at herr
          exact ⟨e, herr.symm, herr ▸ newError_ne_arg e,
            Or.inr (Or.inr ⟨gp, tx, rfl, hm, hw⟩)⟩
        | ok rc => simp [decreaseStake, hg, hm, hw] at herr
  · intro err herr
    cases hg : w.getGasPrice () with
    | error e =>
      simp [decreaseAndDestroy, hg] at herr
      exact ⟨e, herr.symm, herr ▸ newError_ne_arg e, Or.inl rfl⟩
    | ok gp =>
      cases hm : w.decreaseAndDestroy a b { gasPrice := some gp } with
      | error e =>
        simp [decreaseAndDestroy, hg, hm] at herr
        exact ⟨e, herr.symm, herr ▸ newError_ne_arg e, Or.inr (Or.inl ⟨gp, rfl, hm⟩)⟩
      | ok tx =>
        cases hw : w.txWait tx with
        | error e =>
          simp [decreaseAndDestroy, hg, hm, hw] at herr
          exact ⟨e, herr.symm, herr ▸ newError_ne_arg e,
            Or.inr (Or.inr ⟨gp, tx, rfl, hm, hw⟩)⟩
        | ok rc => simp [decreaseAndDestroy, hg, hm, hw] at herr
  · intro v₁ v₂ h
    simp [newError, h]
  · intro v
    exact ⟨rfl, rfl⟩

/-- C9 witness: on an oracle whose gas-price query throws the string "boom",
`decreaseStake` rejects with a value that is the fresh wrapped error and not
the thrown value. -/
theorem c9_fresh_error_witness :
    (decreaseStake gasFailWorld 1 2).2 = .error (newError (JsValue.str "boom"))
    ∧ ∃ e, newError (JsValue.str "boom") = newError e
        ∧ JsValue.err (newError (JsValue.str "boom")) ≠ e
        ∧ (gasFailWorld.getGasPrice () = .error e
            ∨ (∃ gp, gasFailWorld.getGasPrice () = .ok gp
                ∧ gasFailWorld.decreaseStake 1 2 { gasPrice := some gp } = .error e)
            ∨ (∃ gp tx, gasFailWorld.getGasPrice () = .ok gp
                ∧ gasFailWorld.decreaseStake 1 2 { gasPrice := some gp } = .ok tx
                ∧ gasFailWorld.txWait tx = .error e)) := by
  obtain ⟨-, -, -, -, -, -, h7, -⟩ := c9_fresh_error gasFailWorld 1 2
  exact ⟨rfl, h7 (newError (JsValue.str "boom")) rfl⟩

/-- C2: every wrapper catches a thrown remote error and rethrows it
uniformly re-wrapped, with no recovery and no swallowing: the wrapper
fulfills exactly when every remote call it awaits succeeds, rejects exactly
when one throws, and every rejection value is of the uniform wrapped form
regardless of the kind of the thrown value. -/
theorem c2_error_propagation (w : RemoteWorld) (a b : Int) :
    ((∃ r, (collaterals w a).2 = .ok r) ↔ (∃ v, w.collaterals a = .ok v))
    ∧ (∀ e, w.collaterals a = .error e → (collaterals w a).2 = .error (newError e))
    ∧ ((∃ r, (collateralInfo w a b).2 = .ok r) ↔ (∃ v, w.collateralInfo a b = .ok v))
    ∧ (∀ e, w.collateralInfo a b = .error e → (collateralInfo w a b).2 = .error (newError e))
    ∧ ((∃ r, (getCollateralInfo w a).2 = .ok r) ↔ (∃ v, w.getCollateralInfo a = .ok v))
    ∧ (∀ e, w.getCollateralInfo a = .error e → (getCollateralInfo w a).2 = .error (newError e))
    ∧ ((∃ r, (getAllCollateralTypes w).2 = .ok r) ↔ (∃ v, w.getAllCollateralTypes () = .ok v))
    ∧ (∀ e, w.getAllCollateralTypes () = .error e →
        (getAllCollateralTypes w).2 = .error (newError e))
    ∧ ((∃ r, (collateralBalance w a).2 = .ok r) ↔ (∃ v, w.collateralBalance a = .ok v))
    ∧ (∀ e, w.collateralBalance a = .error e → (collateralBalance w a).2 = .error (newError e))
    ∧ ((increaseStake w a b).2 = .ok () ↔
        (∃ gp tx rc, w.getGasPrice () = .ok gp
          ∧ w.increaseStake a b { gasPrice := some gp } = .ok tx ∧ w.txWait tx = .ok rc))
    ∧ (∀ err, (increaseStake w a b).2 = .error err → ∃ e, err = newError e)
    ∧ ((decreaseStake w a b).2 = .ok () ↔
        (∃ gp tx rc, w.getGasPrice () = .ok gp
          ∧ w.decreaseStake a b { gasPrice := some gp } = .ok tx ∧ w.txWait tx = .ok rc))
    ∧ (∀ err, (decreaseStake w a b).2 = .error err → ∃ e, err = newError e)
    ∧ ((decreaseAndDestroy w a b).2 = .ok () ↔
        (∃ gp tx rc, w.getGasPrice () = .ok gp
          ∧ w.decreaseAndDestroy a b { gasPrice := some gp } = .ok tx ∧ w.txWait tx = .ok rc))
    ∧ (∀ err, (decreaseAndDestroy w a b).2 = .error err → ∃ e, err = newError e) := by
  refine ⟨?_, ?_, ?_, ?_, ?_, ?_, ?_, ?_, ?_, ?_, ?_, ?_, ?_, ?_, ?_, ?_⟩
  · cases h : w.collaterals a <;> simp [collaterals, h]
  · intro e h
    simp [collaterals, h]
  · cases h : w.collateralInfo a b <;> simp [collateralInfo, h]
  · intro e h
    simp [collateralInfo, h]
  · cases h : w.getCollateralInfo a <;> simp [getCollateralInfo, h]
  · intro e h
    simp [getCollateralInfo, h]
  · cases h : w.getAllCollateralTypes () <;> simp [getAllCollateralTypes, h]
  · intro e h
    simp [getAllCollateralTypes, h]
  · cases h : w.collateralBalance a <;> simp [collateralBalance, h]
  · intro e h
    simp [collateralBalance, h]
  · cases hg : w.getGasPrice () with
    | error e => simp [increaseStake, hg]
    | ok gp =>
      cases hm : w.increaseStake a b { gasPrice := some gp } with
      | error e => simp [increaseStake, hg, hm]
      | ok tx => cases hw : w.txWait tx <;> simp [increaseStake, hg, hm, hw]
  · intro err herr
    cases hg : w.getGasPrice () with
    | error e =>
      simp [increaseStake, hg] at herr
      exact ⟨e, herr.symm⟩
    | ok gp =>
      cases hm : w.increaseStake a b { gasPrice := some gp } with
      | error e =>
        simp [increaseStake, hg, hm] at herr
        exact ⟨e, herr.symm⟩
      | ok tx =>
        cases hw : w.txWait tx with
        | error e =>
          simp [increaseStake, hg, hm, hw] at herr
          exact ⟨e, herr.symm⟩
        | ok rc => simp [increaseStake, hg, hm, hw] at herr
  · cases hg : w.getGasPrice () with
    | error e => simp [decreaseStake, hg]
    | ok gp =>
      cases hm : w.decreaseStake a b { gasPrice := some gp } with
      | error e => simp [decreaseStake, hg, hm]
      | ok tx => cases hw : w.txWait tx <;> simp [decreaseStake, hg, hm, hw]
  · intro err herr
    cases hg : w.getGasPrice () with
    | error e =>
      simp [decreaseStake, hg] at herr
      exact ⟨e, herr.symm⟩
    | ok gp =>
      cases hm : w.decreaseStake a b { gasPrice := some gp } with
      | error e =>
        simp [decreaseStake, hg, hm] at herr
        exact ⟨e, herr.symm⟩
      | ok tx =>
        cases hw : w.txWait tx with
        | error e =>
          simp [decreaseStake, hg, hm, hw] at herr
          exact ⟨e, herr.symm⟩
        | ok rc => simp [decreaseStake, hg, hm, hw] at herr
  · cases hg : w.getGasPrice () with
    | error e => simp [decreaseAndDestroy, hg]
    | ok gp =>
      cases hm : w.decreaseAndDestroy a b { gasPrice := some gp } with
      | error e => simp [decreaseAndDestroy, hg, hm]
      | ok tx => cases hw : w.txWait tx <;> simp [decreaseAndDestroy, hg, hm, hw]
  · intro err herr
    cases hg : w.getGasPrice () with
    | error e =>
      simp [decreaseAndDestroy, hg] at herr
      exact ⟨e, herr.symm⟩
    | ok gp =>
      cases hm : w.decreaseAndDestroy a b { gasPrice := some gp } with
      | error e =>
        simp [decreaseAndDestroy, hg, hm] at herr
        exact ⟨e, herr.symm⟩
      | ok tx =>
        cases hw : w.txWait tx with
        | error e =>
          simp [decreaseAndDestroy, hg, hm, hw] at herr
          exact ⟨e, herr.symm⟩
        | ok rc => simp [decreaseAndDestroy, hg, hm, hw] at herr

/-- C2 witness: on the all-success sample oracle `collaterals` fulfills, and
on the oracle whose gas-price query throws `increaseStake` rejects with a
wrapped error. -/
theorem c2_error_propagation_witness :
    (∃ r, (collaterals sampleWorld 1).2 = .ok r)
    ∧ ∃ e, (increaseStake gasFailWorld 1 2).2 = .error (newError e) := by
  constructor
  · exact (c2_error_propagation sampleWorld 1 2).1.mpr ⟨["0xA", "0xB"], rfl⟩
  · obtain ⟨e, he⟩ :=
      (c2_error_propagation gasFailWorld 1 2).2.2.2.2.2.2.2.2.2.2.2.1
        (newError (JsValue.str "boom")) rfl
    exact ⟨e, by rw [← he]; rfl⟩

/-- C5: in each write wrapper the awaited remote calls occur strictly in
sequence, the gas-price query first, then the contract write, then
`tx.wait`, and the wrapper fulfills only when all three happened, i.e. only
after transaction confirmation completed. -/
theorem c5_sequential_awaits (w : RemoteWorld) (a b : Int) :
    (∃ ov : Overrides,
      ((increaseStake w a b).1 = [Event.getGasPrice]
        ∨ (increaseStake w a b).1 = [Event.getGasPrice, Event.callIncreaseStake a b ov]
        ∨ (increaseStake w a b).1
            = [Event.getGasPrice, Event.callIncreaseStake a b ov, Event.txWait])
      ∧ ((increaseStake w a b).2 = .ok () →
          (increaseStake w a b).1
            = [Event.getGasPrice, Event.callIncreaseStake a b ov, Event.txWait]))
    ∧ (∃ ov : Overrides,
      ((decreaseStake w a b).1 = [Event.getGasPrice]
        ∨ (decreaseStake w a b).1 = [Event.getGasPrice, Event.callDecreaseStake a b ov]
        ∨ (decreaseStake w a b).1
            = [Event.getGasPrice, Event.callDecreaseStake a b ov, Event.txWait])
      ∧ ((decreaseStake w a b).2 = .ok () →
          (decreaseStake w a b).1
            = [Event.getGasPrice, Event.callDecreaseStake a b ov, Event.txWait]))
    ∧ (∃ ov : Overrides,
      ((decreaseAndDestroy w a b).1 = [Event.getGasPrice]
        ∨ (decreaseAndDestroy w a b).1
            = [Event.getGasPrice, Event.callDecreaseAndDestroy a b ov]
        ∨ (decreaseAndDestroy w a b).1
            = [Event.getGasPrice, Event.callDecreaseAndDestroy a b ov, Event.txWait])
      ∧ ((decreaseAndDestroy w a b).2 = .ok () →
          (decreaseAndDestroy w a b).1
            = [Event.getGasPrice, Event.callDecreaseAndDestroy a b ov, Event.txWait])) := by
  refine ⟨?_, ?_, ?_⟩
  · cases hg : w.getGasPrice () with
    | error e => exact ⟨⟨none⟩, Or.inl (by simp [increaseStake, hg]),
        by simp [increaseStake, hg]⟩
    | ok gp =>
      refine ⟨{ gasPrice := some gp }, ?_, ?_⟩
      · cases hm : w.increaseStake a b { gasPrice := some gp } with
        | error e => exact Or.inr (Or.inl (by simp [increaseStake, hg, hm]))
        | ok tx =>
          cases hw : w.txWait tx <;>
            exact Or.inr (Or.inr (by simp [increaseStake, hg, hm, hw]))
      · intro hok
        cases hm : w.increaseStake a b { gasPrice := some gp } with
        | error e => simp [increaseStake, hg, hm] at hok
        | ok tx =>
          cases hw : w.txWait tx with
          | error e => simp [increaseStake, hg, hm, hw] at hok
          | ok rc => simp [increaseStake, hg, hm, hw]
  · cases hg : w.getGasPrice () with
    | error e => exact ⟨⟨none⟩, Or.inl (by simp [decreaseStake, hg]),
        by simp [decreaseStake, hg]⟩
    | ok gp =>
      refine ⟨{ gasPrice := some gp }, ?_, ?_⟩
      · cases hm : w.decreaseStake a b { gasPrice := some gp } with
        | error e => exact Or.inr (Or.inl (by simp [decreaseStake, hg, hm]))
        | ok tx =>
          cases hw : w.txWait tx <;>
            exact Or.inr (Or.inr (by simp [decreaseStake, hg, hm, hw]))
      · intro hok
        cases hm : w.decreaseStake a b { gasPrice := some gp } with
        | error e => simp [decreaseStake, hg, hm] at hok
        | ok tx =>
          cases hw : w.txWait tx with
          | error e => simp [decreaseStake, hg, hm, hw] at hok
          | ok rc => simp [decreaseStake, hg, hm, hw]
  · cases hg : w.getGasPrice () with
    | error e => exact ⟨⟨none⟩, Or.inl (by simp [decreaseAndDestroy, hg]),
        by simp [decreaseAndDestroy, hg]⟩
    | ok gp =>
      refine ⟨{ gasPrice := some gp }, ?_, ?_⟩
      · cases hm : w.decreaseAndDestroy a b { gasPrice := some gp } with
        | error e => exact Or.inr (Or.inl (by simp [decreaseAndDestroy, hg, hm]))
        | ok tx =>
          cases hw : w.txWait tx <;>
            exact Or.inr (Or.inr (by simp [decreaseAndDestroy, hg, hm, hw]))
      · intro hok
        cases hm : w.decreaseAndDestroy a b { gasPrice := some gp } with
        | error e => simp [decreaseAndDestroy, hg, hm] at hok
        | ok tx =>
          cases hw : w.txWait tx with
          | error e => simp [decreaseAndDestroy, hg, hm, hw] at hok
          | ok rc => simp [decreaseAndDestroy, hg, hm, hw]

/-- C5 witness: the theorem applied to the all-success sample oracle. -/
theorem c5_sequential_awaits_witness :
    ∃ ov : Overrides,
      ((increaseStake sampleWorld 1 2).1 = [Event.getGasPrice]
        ∨ (increaseStake sampleWorld 1 2).1
            = [Event.getGasPrice, Event.callIncreaseStake 1 2 ov]
        ∨ (increaseStake sampleWorld 1 2).1
            = [Event.getGasPrice, Event.callIncreaseStake 1 2 ov, Event.txWait])
      ∧ ((increaseStake sampleWorld 1 2).2 = .ok () →
          (increaseStake sampleWorld 1 2).1
            = [Event.getGasPrice, Event.callIncreaseStake 1 2 ov, Event.txWait]) :=
  (c5_sequential_awaits sampleWorld 1 2).1

/-- C6 counterexample: on an oracle whose gas-price query throws, a single
invocation of the `decreaseStake` wrapper invokes the remote `decreaseStake`
contract method zero times, not exactly once; the wrapper rejects without
ever reaching the contract call. -/
theorem c6_counterexample :
    (decreaseStake gasFailWorld 1 2).1.countP isDecreaseStakeCall = 0
    ∧ (decreaseStake gasFailWorld 1 2).1 = [Event.getGasPrice]
    ∧ (decreaseStake gasFailWorld 1 2).2 = .error (newError (JsValue.str "boom")) :=
  ⟨rfl, rfl, rfl⟩

/-- C6 amended: each wrapper invokes its remote contract method at most once
per call, with no retry and no backoff: each read wrapper invokes it exactly
once, and each write wrapper invokes it exactly once when the preceding
gas-price query succeeds and zero times when that query throws. -/
theorem c6_amended_call_counts (w : RemoteWorld) (a b : Int) :
    (collaterals w a).1.countP isCollateralsCall = 1
    ∧ (collateralInfo w a b).1.countP isCollateralInfoCall = 1
    ∧ (getCollateralInfo w a).1.countP isGetCollateralInfoCall = 1
    ∧ (getAllCollateralTypes w).1.countP isGetAllCollateralTypesCall = 1
    ∧ (collateralBalance w a).1.countP isCollateralBalanceCall = 1
    ∧ (increaseStake w a b).1.countP isIncreaseStakeCall ≤ 1
    ∧ ((increaseStake w a b).1.countP isIncreaseStakeCall = 1
        ↔ ∃ gp, w.getGasPrice () = .ok gp)
    ∧ (decreaseStake w a b).1.countP isDecreaseStakeCall ≤ 1
    ∧ ((decreaseStake w a b).1.countP isDecreaseStakeCall = 1
        ↔ ∃ gp, w.getGasPrice () = .ok gp)
    ∧ (decreaseAndDestroy w a b).1.countP isDecreaseAndDestroyCall ≤ 1
    ∧ ((decreaseAndDestroy w a b).1.countP isDecreaseAndDestroyCall = 1
        ↔ ∃ gp, w.getGasPrice () = .ok gp) := by
  refine ⟨?_, ?_, ?_, ?_, ?_, ?_, ?_, ?_, ?_, ?_, ?_⟩
  · cases h : w.collaterals a <;>
      simp [collaterals, h, isCollateralsCall, List.countP_cons, List.countP_nil]
  · cases h : w.collateralInfo a b <;>
      simp [collateralInfo, h, isCollateralInfoCall, List.countP_cons, List.countP_nil]
  · cases h : w.getCollateralInfo a <;>
      simp [getCollateralInfo, h, isGetCollateralInfoCall, List.countP_cons, List.countP_nil]
  · cases h : w.getAllCollateralTypes () <;>
      simp [getAllCollateralTypes, h, isGetAllCollateralTypesCall,
        List.countP_cons, List.countP_nil]
  · cases h : w.collateralBalance a <;>
      simp [collateralBalance, h, isCollateralBalanceCall, List.countP_cons, List.countP_nil]
  · cases hg : w.getGasPrice () with
    | error e =>
      simp [increaseStake, hg, isIncreaseStakeCall, List.countP_cons, List.countP_nil]
    | ok gp =>
      cases hm : w.increaseStake a b { gasPrice := some gp } with
      | error e =>
        simp [increaseStake, hg, hm, isIncreaseStakeCall, List.countP_cons, List.countP_nil]
      | ok tx =>
        cases hw : w.txWait tx <;>
          simp [increaseStake, hg, hm, hw, isIncreaseStakeCall,
            List.countP_cons, List.countP_nil]
  · cases hg : w.getGasPrice () with
    | error e =>
      simp [increaseStake, hg, isIncreaseStakeCall, List.countP_cons, List.countP_nil]
    | ok gp =>
      cases hm : w.increaseStake a b { gasPrice := some gp } with
      | error e =>
        simp [increaseStake, hg, hm, isIncreaseStakeCall, List.countP_cons, List.countP_nil]
      | ok tx =>
        cases hw : w.txWait tx <;>
          simp [increaseStake, hg, hm, hw, isIncreaseStakeCall,
            List.countP_cons, List.countP_nil]
  · cases hg : w.getGasPrice () with
    | error e =>
      simp [decreaseStake, hg, isDecreaseStakeCall, List.countP_cons, List.countP_nil]
    | ok gp =>
      cases hm : w.decreaseStake a b { gasPrice := some gp } with
      | error e =>
        simp [decreaseStake, hg, hm, isDecreaseStakeCall, List.countP_cons, List.countP_nil]
      | ok tx =>
        cases hw : w.txWait tx <;>
          simp [decreaseStake, hg, hm, hw, isDecreaseStakeCall,
            List.countP_cons, List.countP_nil]
  · cases hg : w.getGasPrice () with
    | error e =>
      simp [decreaseStake, hg, isDecreaseStakeCall, List.countP_cons, List.countP_nil]
    | ok gp =>
      cases hm : w.decreaseStake a b { gasPrice := some gp } with
      | error e =>
        simp [decreaseStake, hg, hm, isDecreaseStakeCall, List.countP_cons, List.countP_nil]
      | ok tx =>
        cases hw : w.txWait tx <;>
          simp [decreaseStake, hg, hm, hw, isDecreaseStakeCall,
            List.countP_cons, List.countP_nil]
  · cases hg : w.getGasPrice () with
    | error e =>
      simp [decreaseAndDestroy, hg, isDecreaseAndDestroyCall,
        List.countP_cons, List.countP_nil]
    | ok gp =>
      cases hm : w.decreaseAndDestroy a b { gasPrice := some gp } with
      | error e =>
        simp [decreaseAndDestroy, hg, hm, isDecreaseAndDestroyCall,
          List.countP_cons, List.countP_nil]
      | ok tx =>
        cases hw : w.txWait tx <;>
          simp [decreaseAndDestroy, hg, hm, hw, isDecreaseAndDestroyCall,
            List.countP_cons, List.countP_nil]
  · cases hg : w.getGasPrice () with
    | error e =>
      simp [decreaseAndDestroy, hg, isDecreaseAndDestroyCall,
        List.countP_cons, List.countP_nil]
    | ok gp =>
      cases hm : w.decreaseAndDestroy a b { gasPrice := some gp } with
      | error e =>
        simp [decreaseAndDestroy, hg, hm, isDecreaseAndDestroyCall,
          List.countP_cons, List.countP_nil]
      | ok tx =>
        cases hw : w.txWait tx <;>
          simp [decreaseAndDestroy, hg, hm, hw, isDecreaseAndDestroyCall,
            List.countP_cons, List.countP_nil]

/-- C6 amended witness: on the all-success sample oracle the gas-price query
succeeds and `increaseStake` invokes its contract method exactly once. -/
theorem c6_amended_call_counts_witness :
    (∃ gp, sampleWorld.getGasPrice () = .ok gp)
    ∧ (increaseStake sampleWorld 1 2).1.countP isIncreaseStakeCall = 1 := by
  obtain ⟨-, -, -, -, -, -, h7, -⟩ := c6_amended_call_counts sampleWorld 1 2
  exact ⟨⟨30, rfl⟩, h7.mpr ⟨30, rfl⟩⟩

/-- C7: the wrappers are stateless and cache nothing: a wrapper's entire
behaviour (trace and result) is a function of its arguments and the remote
responses alone, so two invocations with the same arguments for which the
remote calls answer the same are indistinguishable, and no invocation can
affect a later one. -/
theorem c7_stateless (w₁ w₂ : RemoteWorld) (a b : Int) :
    (w₁.collaterals a = w₂.collaterals a → collaterals w₁ a = collaterals w₂ a)
    ∧ (w₁.collateralInfo a b = w₂.collateralInfo a b →
        collateralInfo w₁ a b = collateralInfo w₂ a b)
    ∧ (w₁.getCollateralInfo a = w₂.getCollateralInfo a →
        getCollateralInfo w₁ a = getCollateralInfo w₂ a)
    ∧ (w₁.getAllCollateralTypes () = w₂.getAllCollateralTypes () →
        getAllCollateralTypes w₁ = getAllCollateralTypes w₂)
    ∧ (w₁.collateralBalance a = w₂.collateralBalance a →
        collateralBalance w₁ a = collateralBalance w₂ a)
    ∧ (w₁.getGasPrice () = w₂.getGasPrice () →
        (∀ ov, w₁.increaseStake a b ov = w₂.increaseStake a b ov) →
        (∀ tx, w₁.txWait tx = w₂.txWait tx) →
        increaseStake w₁ a b = increaseStake w₂ a b)
    ∧ (w₁.getGasPrice () = w₂.getGasPrice () →
        (∀ ov, w₁.decreaseStake a b ov = w₂.decreaseStake a b ov) →
        (∀ tx, w₁.txWait tx = w₂.txWait tx) →
        decreaseStake w₁ a b = decreaseStake w₂ a b)
    ∧ (w₁.getGasPrice () = w₂.getGasPrice () →
        (∀ ov, w₁.decreaseAndDestroy a b ov = w₂.decreaseAndDestroy a b ov) →
        (∀ tx, w₁.txWait tx = w₂.txWait tx) →
        decreaseAndDestroy w₁ a b = decreaseAndDestroy w₂ a b) := by
  refine ⟨?_, ?_, ?_, ?_, ?_, ?_, ?_, ?_⟩
  · intro h
    unfold collaterals
    rw [h]
  · intro h
    unfold collateralInfo
    rw [h]
  · intro h
    unfold getCollateralInfo
    rw [h]
  · intro h
    unfold getAllCollateralTypes
    rw [h]
  · intro h
    unfold collateralBalance
    rw [h]
  · intro hg hmeth hwait
    unfold increaseStake
    rw [hg]
    simp only [hmeth, hwait]
  · intro hg hmeth hwait
    unfold decreaseStake
    rw [hg]
    simp only [hmeth, hwait]
  · intro hg hmeth hwait
    unfold decreaseAndDestroy
    rw [hg]
    simp only [hmeth, hwait]

/-- C7 witness: the theorem applied with the sample oracle on both sides,
every agreement hypothesis holding by reflexivity. -/
theorem c7_stateless_witness :
    collaterals sampleWorld 1 = collaterals sampleWorld 1
    ∧ increaseStake sampleWorld 1 2 = increaseStake sampleWorld 1 2 := by
  obtain ⟨h1, -, -, -, -, h6, -⟩ := c7_stateless sampleWorld sampleWorld 1 2
  exact ⟨h1 rfl, h6 rfl (fun ov => rfl) (fun tx => rfl)⟩

/-- C10: every write wrapper resolves with no value on success, and both the
transaction object and the confirmation receipt are discarded: the success
value is the unit value, and the wrapper's whole behaviour is unchanged when
the remote transaction object or receipt changes. -/
theorem c10_write_discard (w : RemoteWorld) (a b : Int) (tx₁ tx₂ : Tx)
    (rc₁ rc₂ : Receipt) :
    (∀ r, (increaseStake w a b).2 = .ok r → r = ())
    ∧ (∀ r, (decreaseStake w a b).2 = .ok r → r = ())
    ∧ (∀ r, (decreaseAndDestroy w a b).2 = .ok r → r = ())
    ∧ increaseStake { w with txWait := fun _ => .ok rc₁ } a b
        = increaseStake { w with txWait := fun _ => .ok rc₂ } a b
    ∧ decreaseStake { w with txWait := fun _ => .ok rc₁ } a b
        = decreaseStake { w with txWait := fun _ => .ok rc₂ } a b
    ∧ decreaseAndDestroy { w with txWait := fun _ => .ok rc₁ } a b
        = decreaseAndDestroy { w with txWait := fun _ => .ok rc₂ } a b
    ∧ increaseStake { w with increaseStake := (fun _ _ _ => .ok tx₁), txWait := fun _ => .ok rc₁ } a b
        = increaseStake { w with increaseStake := (fun _ _ _ => .ok tx₂), txWait := fun _ => .ok rc₁ } a b
    ∧ decreaseStake { w with decreaseStake := (fun _ _ _ => .ok tx₁), txWait := fun _ => .ok rc₁ } a b
        = decreaseStake { w with decreaseStake := (fun _ _ _ => .ok tx₂), txWait := fun _ => .ok rc₁ } a b
    ∧ decreaseAndDestroy { w with decreaseAndDestroy := (fun _ _ _ => .ok tx₁), txWait := fun _ => .ok rc₁ } a b
        = decreaseAndDestroy { w with decreaseAndDestroy := (fun _ _ _ => .ok tx₂), txWait := fun _ => .ok rc₁ } a b := by
  refine ⟨?_, ?_, ?_, ?_, ?_, ?_, ?_, ?_, ?_⟩
  · intro r _
    cases r
    rfl
  · intro r _
    cases r
    rfl
  · intro r _
    cases r
    rfl
  · cases hg : w.getGasPrice () with
    | error e => simp [increaseStake, hg]
    | ok gp =>
      cases hm : w.increaseStake a b { gasPrice := some gp } with
      | error e => simp [increaseStake, hg, hm]
      | ok tx => simp [increaseStake, hg, hm]
  · cases hg : w.getGasPrice () with
    | error e => simp [decreaseStake, hg]
    | ok gp =>
      cases hm : w.decreaseStake a b { gasPrice := some gp } with
      | error e => simp [decreaseStake, hg, hm]
      | ok tx => simp [decreaseStake, hg, hm]
  · cases hg : w.getGasPrice () with
    | error e => simp [decreaseAndDestroy, hg]
    | ok gp =>
      cases hm : w.decreaseAndDestroy a b { gasPrice := some gp } with
      | error e => simp [decreaseAndDestroy, hg, hm]
      | ok tx => simp [decreaseAndDestroy, hg, hm]
  · cases hg : w.getGasPrice () with
    | error e => simp [increaseStake, hg]
    | ok gp => simp [increaseStake, hg]
  · cases hg : w.getGasPrice () with
    | error e => simp [decreaseStake, hg]
    | ok gp => simp [decreaseStake, hg]
  · cases hg : w.getGasPrice () with
    | error e => simp [decreaseAndDestroy, hg]
    | ok gp => simp [decreaseAndDestroy, hg]

/-- C10 witness: on the all-success sample oracle `increaseStake` succeeds
with the unit value, and its behaviour is identical under two different
receipts. -/
theorem c10_write_discard_witness :
    ((increaseStake sampleWorld 1 2).2 = .ok () → (() : Unit) = ())
    ∧ increaseStake { sampleWorld with txWait := fun _ => .ok ⟨5⟩ } 1 2
        = increaseStake { sampleWorld with txWait := fun _ => .ok ⟨6⟩ } 1 2 := by
  obtain ⟨h1, -, -, h4, -⟩ := c10_write_discard sampleWorld 1 2 ⟨1⟩ ⟨2⟩ ⟨5⟩ ⟨6⟩
  exact ⟨h1 (), h4⟩

/-- C3 counterexample: contrary to the claim, the `increaseStake` wrapper
does query a gas price and does set it as a gas parameter of the transaction
it submits: on the all-success sample oracle with arguments 1, 2 its trace
contains the provider gas-price query, and the contract call it issues
carries the override object with `gasPrice` set to the queried price 30. -/
theorem c3_counterexample :
    Event.getGasPrice ∈ (increaseStake sampleWorld 1 2).1
    ∧ (increaseStake sampleWorld 1 2).1
        = [Event.getGasPrice, Event.callIncreaseStake 1 2 { gasPrice := some 30 },
           Event.txWait]
    ∧ sampleWorld.getGasPrice () = .ok 30 := by
  refine ⟨?_, rfl, rfl⟩
  exact List.mem_cons_self _ _

/-- C3 amended: no retry or backoff logic is present and the read wrappers
neither query nor set any gas parameter, but each write wrapper queries the
provider's current gas price exactly once and sets exactly that price as the
`gasPrice` override of the transaction it submits. -/
theorem c3_amended_gas_policy (w : RemoteWorld) (a b : Int) :
    Event.getGasPrice ∉ (collaterals w a).1
    ∧ Event.getGasPrice ∉ (collateralInfo w a b).1
    ∧ Event.getGasPrice ∉ (getCollateralInfo w a).1
    ∧ Event.getGasPrice ∉ (getAllCollateralTypes w).1
    ∧ Event.getGasPrice ∉ (collateralBalance w a).1
    ∧ (increaseStake w a b).1.countP isGasQuery = 1
    ∧ (∀ t s ov, Event.callIncreaseStake t s ov ∈ (increaseStake w a b).1 →
        ∃ gp, w.getGasPrice () = .ok gp ∧ ov = { gasPrice := some gp })
    ∧ (decreaseStake w a b).1.countP isGasQuery = 1
    ∧ (∀ t s ov, Event.callDecreaseStake t s ov ∈ (decreaseStake w a b).1 →
        ∃ gp, w.getGasPrice () = .ok gp ∧ ov = { gasPrice := some gp })
    ∧ (decreaseAndDestroy w a b).1.countP isGasQuery = 1
    ∧ (∀ t s ov, Event.callDecreaseAndDestroy t s ov ∈ (decreaseAndDestroy w a b).1 →
        ∃ gp, w.getGasPrice () = .ok gp ∧ ov = { gasPrice := some gp }) := by
  refine ⟨?_, ?_, ?_, ?_, ?_, ?_, ?_, ?_, ?_, ?_, ?_⟩
  · cases h : w.collaterals a <;> simp [collaterals, h]
  · cases h : w.collateralInfo a b <;> simp [collateralInfo, h]
  · cases h : w.getCollateralInfo a <;> simp [getCollateralInfo, h]
  · cases h : w.getAllCollateralTypes () <;> simp [getAllCollateralTypes, h]
  · cases h : w.collateralBalance a <;> simp [collateralBalance, h]
  · cases hg : w.getGasPrice () with
    | error e => simp [increaseStake, hg, isGasQuery, List.countP_cons, List.countP_nil]
    | ok gp =>
      cases hm : w.increaseStake a b { gasPrice := some gp } with
      | error e =>
        simp [increaseStake, hg, hm, isGasQuery, List.countP_cons, List.countP_nil]
      | ok tx =>
        cases hw : w.txWait tx <;>
          simp [increaseStake, hg, hm, hw, isGasQuery, List.countP_cons, List.countP_nil]
  · intro t s ov hmem
    cases hg : w.getGasPrice () with
    | error e => simp [increaseStake, hg] at hmem
    | ok gp =>
      cases hm : w.increaseStake a b { gasPrice := some gp } with
      | error e =>
        simp [increaseStake, hg, hm] at hmem
        exact ⟨gp, rfl, hmem.2.2⟩
      | ok tx =>
        cases hw : w.txWait tx with
        | error e =>
          simp [increaseStake, hg, hm, hw] at hmem
          exact ⟨gp, rfl, hmem.2.2⟩
        | ok rc =>
          simp [increaseStake, hg, hm, hw] at hmem
          exact ⟨gp, rfl, hmem.2.2⟩
  · cases hg : w.getGasPrice () with
    | error e => simp [decreaseStake, hg, isGasQuery, List.countP_cons, List.countP_nil]
    | ok gp =>
      cases hm : w.decreaseStake a b { gasPrice := some gp } with
      | error e =>
        simp [decreaseStake, hg, hm, isGasQuery, List.countP_cons, List.countP_nil]
      | ok tx =>
        cases hw : w.txWait tx <;>
          simp [decreaseStake, hg, hm, hw, isGasQuery, List.countP_cons, List.countP_nil]
  · intro t s ov hmem
    cases hg : w.getGasPrice () with
    | error e => simp [decreaseStake, hg] at hmem
    | ok gp =>
      cases hm : w.decreaseStake a b { gasPrice := some gp } with
      | error e =>
        simp [decreaseStake, hg, hm] at hmem
        exact ⟨gp, rfl, hmem.2.2⟩
      | ok tx =>
        cases hw : w.txWait tx with
        | error e =>
          simp [decreaseStake, hg, hm, hw] at hmem
          exact ⟨gp, rfl, hmem.2.2⟩
        | ok rc =>
          simp [decreaseStake, hg, hm, hw] at hmem
          exact ⟨gp, rfl, hmem.2.2⟩
  · cases hg : w.getGasPrice () with
    | error e =>
      simp [decreaseAndDestroy, hg, isGasQuery, List.countP_cons, List.countP_nil]
    | ok gp =>
      cases hm : w.decreaseAndDestroy a b { gasPrice := some gp } with
      | error e =>
        simp [decreaseAndDestroy, hg, hm, isGasQuery, List.countP_cons, List.countP_nil]
      | ok tx =>
        cases hw : w.txWait tx <;>
          simp [decreaseAndDestroy, hg, hm, hw, isGasQuery,
            List.countP_cons, List.countP_nil]
  · intro t s ov hmem
    cases hg : w.getGasPrice () with
    | error e => simp [decreaseAndDestroy, hg] at hmem
    | ok gp =>
      cases hm : w.decreaseAndDestroy a b { gasPrice := some gp } with
      | error e =>
        simp [decreaseAndDestroy, hg, hm] at hmem
        exact ⟨gp, rfl, hmem.2.2⟩
      | ok tx =>
        cases hw : w.txWait tx with
        | error e =>
          simp [decreaseAndDestroy, hg, hm, hw] at hmem
          exact ⟨gp, rfl, hmem.2.2⟩
        | ok rc =>
          simp [decreaseAndDestroy, hg, hm, hw] at hmem
          exact ⟨gp, rfl, hmem.2.2⟩

/-- C3 amended witness: on the all-success sample oracle the read wrapper
`collaterals` performs no gas-price query, while the `increaseStake` contract
call carries the override holding the queried price. -/
theorem c3_amended_gas_policy_witness :
    Event.getGasPrice ∉ (collaterals sampleWorld 1).1
    ∧ Event.callIncreaseStake 1 2 { gasPrice := some 30 } ∈ (increaseStake sampleWorld 1 2).1
    ∧ ∃ gp, sampleWorld.getGasPrice () = .ok gp
        ∧ ({ gasPrice := some 30 } : Overrides) = { gasPrice := some gp } := by
  obtain ⟨h1, -, -, -, -, -, h7, -⟩ := c3_amended_gas_policy sampleWorld 1 2
  have hmem : Event.callIncreaseStake 1 2 { gasPrice := some 30 }
      ∈ (increaseStake sampleWorld 1 2).1 := by
    rw [show (increaseStake sampleWorld 1 2).1
      = [Event.getGasPrice, Event.callIncreaseStake 1 2 { gasPrice := some 30 },
         Event.txWait] from rfl]
    exact List.mem_cons_of_mem _ (List.mem_cons_self _ _)
  exact ⟨h1, hmem, h7 1 2 { gasPrice := some 30 } hmem⟩

end CollateralFacet
